import Mathlib

/-!
Verification of the Package-Manager Job Core of lastore-daemon
(`src/internal/system/apt/proxy.go` and the update-source handling of
`src/lastore-daemon`).

Strings are embedded as `List Char` (Go `string` / `[]byte`); the helper
functions below mirror the Go standard-library routines the source uses
(`strings.SplitN`, `strings.TrimSpace`, `bytes.Contains`, `bytes.Index`,
`strconv.ParseFloat` restricted to decimal notation).  Progress values are
embedded as `ℚ`.
-/

/-- Go `unicode.IsSpace` restricted to the ASCII range, which is what the
progress lines of apt-get contain. -/
def isSpaceChar (c : Char) : Bool :=
  c = ' ' ∨ c = '\t' ∨ c = '\n' ∨ c = '\x0b' ∨ c = '\x0c' ∨ c = '\r'

/-- Go `strings.TrimSpace`: drop whitespace from both ends. -/
def trimSpace (s : List Char) : List Char :=
  ((s.dropWhile isSpaceChar).reverse.dropWhile isSpaceChar).reverse

/-- Go `strings.Index` / `bytes.Index`: index of the first occurrence of
`pat` in `s`, `none` when absent. -/
def strIndex : List Char → List Char → Option Nat
  | [], pat => if pat.isPrefixOf ([] : List Char) then some 0 else none
  | c :: t, pat =>
    if pat.isPrefixOf (c :: t) then some 0 else (strIndex t pat).map (· + 1)

/-- Go `strings.Contains` / `bytes.Contains`. -/
def containsSub (s pat : List Char) : Bool :=
  (strIndex s pat).isSome

/-- Split off the field before the first occurrence of `sep`, together with
the remainder after it; `none` when `sep` does not occur. -/
def splitOnceAt (sep : Char) : List Char → Option (List Char × List Char)
  | [] => none
  | c :: t =>
    if c = sep then some ([], t)
    else (splitOnceAt sep t).map (fun p => (c :: p.1, p.2))

/-- Worker for `splitN`: split at most `k` times. -/
def splitNGo (sep : Char) : Nat → List Char → List (List Char)
  | 0, s => [s]
  | k + 1, s =>
    match splitOnceAt sep s with
    | none => [s]
    | some (pre, post) => pre :: splitNGo sep k post

/-- Go `strings.SplitN(s, sep, n)` for `n ≥ 0`, specialised to a one-character
separator: at most `n` fields, the last field keeps the remainder of
the string (separators included). -/
def splitN (sep : Char) (n : Nat) (s : List Char) : List (List Char) :=
  match n with
  | 0 => []
  | n + 1 => splitNGo sep n s

/-- Value of a digit string, most significant first (helper for the decimal
parser). -/
def digitsVal (ds : List Char) : Nat :=
  ds.foldl (fun acc c => 10 * acc + (c.toNat - '0'.toNat)) 0

/-- Mantissa of a decimal literal: digits with an optional fractional part.
Returns the value and the unconsumed remainder; `none` when no digit is
present. -/
def parseMantissa (s : List Char) : Option (ℚ × List Char) :=
  let ip := s.takeWhile Char.isDigit
  match s.dropWhile Char.isDigit with
  | '.' :: frac =>
    let fp := frac.takeWhile Char.isDigit
    if ip.isEmpty && fp.isEmpty then none
    else some ((digitsVal ip : ℚ) + (digitsVal fp : ℚ) / (10 : ℚ) ^ fp.length,
               frac.dropWhile Char.isDigit)
  | rest => if ip.isEmpty then none else some ((digitsVal ip : ℚ), rest)

/-- Optional exponent part following the mantissa. -/
def parseExponent (q : ℚ) : List Char → Option ℚ
  | [] => some q
  | e :: rest =>
    if e = 'e' ∨ e = 'E' then
      let (sgn, rest2) : Int × List Char :=
        match rest with
        | '+' :: r => (1, r)
        | '-' :: r => (-1, r)
        | r => (1, r)
      let ds := rest2.takeWhile Char.isDigit
      if ds.isEmpty ∨ ¬(rest2.dropWhile Char.isDigit).isEmpty then none
      else some (q * (10 : ℚ) ^ (sgn * (digitsVal ds : Int)))
    else none

/-- Go `strconv.ParseFloat` restricted to decimal notation (optional sign,
digits with optional fractional part, optional exponent), the only shapes
apt-get emits in its progress field.  Exact rounding to binary floating
point is irrelevant to the claims, so the value is kept in `ℚ`. -/
def parseDecimal (s : List Char) : Option ℚ :=
  let (neg, rest) : Bool × List Char :=
    match s with
    | '+' :: r => (false, r)
    | '-' :: r => (true, r)
    | r => (false, r)
  match parseMantissa rest with
  | none => none
  | some (m, rest2) => (parseExponent m rest2).map (fun q => if neg then -q else q)

/-! Error-message constants of `proxy.go` (format verbs elided). -/

def invalidProgressLineMsg : String := "Invlaid Progress line"
def unknownProgressValueMsg : String := "unknown progress value"
def unknowStatusMsg : String := "W: unknow status"

/-- `parseProgressField` of proxy.go: parse the numeric progress field,
error on anything that is not a decimal number. -/
def parseProgressField (v : List Char) : Except String ℚ :=
  match parseDecimal v with
  | none => .error unknownProgressValueMsg
  | some q => .ok q

/-- Modelled from the spec: the `system.Status` string constants of the
`internal/system` package (not under src/); §6 lists the status values
visible to callers.  The exact wire strings do not decide any claim. -/
def RunningStatus : List Char := ("running".data)

/-- Modelled from the spec: the `Failed` status string of `internal/system`
(not under src/). -/
def FailedStatus : List Char := ("failed".data)

/-- `system.JobProgressInfo` as used by proxy.go (`Status` is the string
type `system.Status`). -/
structure JobProgressInfo where
  JobId : List Char
  Progress : ℚ
  Description : List Char
  Status : List Char
  Cancelable : Bool
deriving DecidableEq, Repr

/-- `parseProgressInfo` of proxy.go: split the line on `:` into at most 4
fields, parse the numeric field, then dispatch on the kind field. -/
def parseProgressInfo (id line : List Char) : Except String JobProgressInfo :=
  match splitN ':' 4 line with
  | [f0, f1, f2, f3] =>
    match parseProgressField f2 with
    | .error e => .error e
    | .ok progress =>
      let description := trimSpace f3
      if f0 = ("dummy".data) then
        .ok { JobId := id, Progress := progress, Description := description,
              Status := f1, Cancelable := true }
      else if f0 = ("dlstatus".data) then
        .ok { JobId := id, Progress := progress / 100, Description := description,
              Status := RunningStatus, Cancelable := true }
      else if f0 = ("pmstatus".data) then
        .ok { JobId := id, Progress := progress / 100, Description := description,
              Status := RunningStatus, Cancelable := false }
      else if f0 = ("pmerror".data) then
        .ok { JobId := id, Progress := -1, Description := description,
              Status := FailedStatus, Cancelable := true }
      else
        .error unknowStatusMsg
  | _ => .error invalidProgressLineMsg

/-- Whether an `Except` result is an error. -/
def Except.isErr {ε α : Type} : Except ε α → Bool
  | .error _ => true
  | .ok _ => false

deriving instance DecidableEq for Except

example : parseProgressInfo ("j".data) ("dlstatus:dl:50:desc ".data) =
    .ok { JobId := ("j".data), Progress := 50 / 100, Description := ("desc".data),
          Status := RunningStatus, Cancelable := true } := rfl

example : (parseProgressInfo ("j".data) ("a:b:c".data)).isErr = true := by decide

example : (parseProgressInfo ("j".data) ("pmerror:e:xy:d".data)).isErr = true := by decide

example : parseProgressInfo ("j".data) ("pmerror:e:7:d:x".data) =
    .ok { JobId := ("j".data), Progress := -1, Description := ("d:x".data),
          Status := FailedStatus, Cancelable := true } := rfl

/-! Lemmas about the splitting helpers. -/

theorem splitOnceAt_eq_none (sep : Char) (s : List Char) (h : sep ∉ s) :
    splitOnceAt sep s = none := by
  induction s with
  | nil => rfl
  | cons c t ih =>
    rw [List.mem_cons, not_or] at h
    simp only [splitOnceAt]
    rw [if_neg (fun hc => h.1 hc.symm), ih h.2]
    rfl

theorem splitOnceAt_append (sep : Char) (a rest : List Char) (h : sep ∉ a) :
    splitOnceAt sep (a ++ sep :: rest) = some (a, rest) := by
  induction a with
  | nil => simp [splitOnceAt]
  | cons c t ih =>
    rw [List.mem_cons, not_or] at h
    simp only [List.cons_append, splitOnceAt, List.append_eq]
    rw [if_neg (fun hc => h.1 hc.symm), ih h.2]
    rfl

theorem splitOnceAt_eq_some (sep : Char) (s pre post : List Char)
    (h : splitOnceAt sep s = some (pre, post)) :
    s = pre ++ sep :: post ∧ sep ∉ pre := by
  induction s generalizing pre post with
  | nil => simp [splitOnceAt] at h
  | cons c t ih =>
    simp only [splitOnceAt] at h
    by_cases hc : c = sep
    · rw [if_pos hc] at h
      rw [Option.some.injEq, Prod.mk.injEq] at h
      obtain ⟨h1, h2⟩ := h
      subst h1; subst h2; subst hc
      exact ⟨rfl, List.not_mem_nil _⟩
    · rw [if_neg hc] at h
      cases hsp : splitOnceAt sep t with
      | none => rw [hsp] at h; cases h
      | some p =>
        obtain ⟨p1, p2⟩ := p
        rw [hsp] at h
        simp only [Option.map_some'] at h
        rw [Option.some.injEq, Prod.mk.injEq] at h
        obtain ⟨h1, h2⟩ := h
        obtain ⟨ih1, ih2⟩ := ih p1 p2 hsp
        subst h1; subst h2
        refine ⟨by rw [ih1]; rfl, ?_⟩
        rw [List.mem_cons, not_or]
        exact ⟨fun hce => hc hce.symm, ih2⟩

theorem splitOnceAt_eq_none_iff (sep : Char) (s : List Char) :
    splitOnceAt sep s = none ↔ sep ∉ s := by
  constructor
  · intro h hmem
    induction s with
    | nil => cases hmem
    | cons c t ih =>
      simp only [splitOnceAt] at h
      by_cases hc : c = sep
      · rw [if_pos hc] at h; cases h
      · rw [if_neg hc] at h
        cases hsp : splitOnceAt sep t with
        | none =>
          rcases List.mem_cons.mp hmem with h1 | h1
          · exact hc h1.symm
          · exact ih (by rw [hsp]) h1
        | some p => rw [hsp] at h; cases h
  · exact splitOnceAt_eq_none sep s

theorem splitNGo_append (sep : Char) (k : Nat) (a rest : List Char) (h : sep ∉ a) :
    splitNGo sep (k + 1) (a ++ sep :: rest) = a :: splitNGo sep k rest := by
  simp only [splitNGo, splitOnceAt_append sep a rest h]

theorem splitNGo_no_sep (sep : Char) (k : Nat) (s : List Char) (h : sep ∉ s) :
    splitNGo sep k s = [s] := by
  cases k with
  | zero => rfl
  | succ k => simp only [splitNGo, splitOnceAt_eq_none sep s h]

theorem splitNGo_length (sep : Char) (k : Nat) (s : List Char) :
    (splitNGo sep k s).length = min (k + 1) (s.count sep + 1) := by
  induction k generalizing s with
  | zero =>
    simp only [splitNGo, List.length_singleton]
    omega
  | succ k ih =>
    cases hsp : splitOnceAt sep s with
    | none =>
      have hns : sep ∉ s := (splitOnceAt_eq_none_iff sep s).mp hsp
      have hc0 : s.count sep = 0 := List.count_eq_zero.mpr hns
      simp only [splitNGo, hsp, List.length_singleton, hc0]
      omega
    | some p =>
      obtain ⟨pre, post⟩ := p
      obtain ⟨hdec, hpre⟩ := splitOnceAt_eq_some sep s pre post hsp
      have hcnt : s.count sep = post.count sep + 1 := by
        rw [hdec, List.count_append, List.count_cons_self,
            List.count_eq_zero.mpr hpre]
        omega
      simp only [splitNGo, hsp, List.length_cons, ih, hcnt]
      omega

theorem splitN_four_fields (k st pr d : List Char)
    (hk : ':' ∉ k) (hs : ':' ∉ st) (hp : ':' ∉ pr) :
    splitN ':' 4 (k ++ ':' :: (st ++ ':' :: (pr ++ ':' :: d))) = [k, st, pr, d] := by
  show splitNGo ':' 3 _ = _
  rw [splitNGo_append ':' 2 k _ hk, splitNGo_append ':' 1 st _ hs,
      splitNGo_append ':' 0 pr _ hp]
  rfl

/-- Reduction of `parseProgressInfo` once the field split is known. -/
theorem parseProgressInfo_four (id line f0 f1 f2 f3 : List Char)
    (h : splitN ':' 4 line = [f0, f1, f2, f3]) :
    parseProgressInfo id line =
      match parseProgressField f2 with
      | .error e => .error e
      | .ok progress =>
        if f0 = ("dummy".data) then
          .ok { JobId := id, Progress := progress, Description := trimSpace f3,
                Status := f1, Cancelable := true }
        else if f0 = ("dlstatus".data) then
          .ok { JobId := id, Progress := progress / 100, Description := trimSpace f3,
                Status := RunningStatus, Cancelable := true }
        else if f0 = ("pmstatus".data) then
          .ok { JobId := id, Progress := progress / 100, Description := trimSpace f3,
                Status := RunningStatus, Cancelable := false }
        else if f0 = ("pmerror".data) then
          .ok { JobId := id, Progress := -1, Description := trimSpace f3,
                Status := FailedStatus, Cancelable := true }
        else .error unknowStatusMsg := by
  unfold parseProgressInfo
  rw [h]

/-- A line splitting into fewer than four fields is rejected. -/
theorem parseProgressInfo_short (id line : List Char) (h : line.count ':' < 3) :
    parseProgressInfo id line = .error invalidProgressLineMsg := by
  have hlen : (splitN ':' 4 line).length = line.count ':' + 1 := by
    show (splitNGo ':' 3 line).length = _
    rw [splitNGo_length]
    omega
  unfold parseProgressInfo
  rcases hsp : splitN ':' 4 line with _ | ⟨f0, _ | ⟨f1, _ | ⟨f2, _ | ⟨f3, _ | ⟨f4, rest⟩⟩⟩⟩⟩
  · rfl
  · rfl
  · rfl
  · rfl
  · rw [hsp] at hlen
    simp only [List.length_cons, List.length_nil] at hlen
    omega
  · rfl

/-- C5: for every well-formed progress line `kind:status:progress:description`
(four fields, numeric progress), `parseProgressInfo` maps the kind field as
follows: "dlstatus" gives status Running, progress divided by 100,
cancelable true; "pmstatus" gives status Running, progress divided by 100,
cancelable false; "pmerror" gives status Failed, progress forced to −1,
cancelable true; "dummy" gives the status field verbatim, progress as-is,
cancelable true; any other kind yields a parse error. -/
theorem parseProgressInfo_kind_mapping (id k st pr d : List Char)
    (hk : ':' ∉ k) (hs : ':' ∉ st) (hp : ':' ∉ pr) (q : ℚ)
    (hq : parseDecimal pr = some q) :
    (k = ("dlstatus".data) →
      parseProgressInfo id (k ++ ':' :: (st ++ ':' :: (pr ++ ':' :: d))) =
        .ok { JobId := id, Progress := q / 100, Description := trimSpace d,
              Status := RunningStatus, Cancelable := true }) ∧
    (k = ("pmstatus".data) →
      parseProgressInfo id (k ++ ':' :: (st ++ ':' :: (pr ++ ':' :: d))) =
        .ok { JobId := id, Progress := q / 100, Description := trimSpace d,
              Status := RunningStatus, Cancelable := false }) ∧
    (k = ("pmerror".data) →
      parseProgressInfo id (k ++ ':' :: (st ++ ':' :: (pr ++ ':' :: d))) =
        .ok { JobId := id, Progress := -1, Description := trimSpace d,
              Status := FailedStatus, Cancelable := true }) ∧
    (k = ("dummy".data) →
      parseProgressInfo id (k ++ ':' :: (st ++ ':' :: (pr ++ ':' :: d))) =
        .ok { JobId := id, Progress := q, Description := trimSpace d,
              Status := st, Cancelable := true }) ∧
    (k ≠ ("dlstatus".data) → k ≠ ("pmstatus".data) → k ≠ ("pmerror".data) →
      k ≠ ("dummy".data) →
      parseProgressInfo id (k ++ ':' :: (st ++ ':' :: (pr ++ ':' :: d))) =
        .error unknowStatusMsg) := by
  have hpf : parseProgressField pr = .ok q := by
    unfold parseProgressField
    rw [hq]
  refine ⟨?_, ?_, ?_, ?_, ?_⟩
  · intro h; subst h
    rw [parseProgressInfo_four id _ _ st pr d (splitN_four_fields _ st pr d hk hs hp),
        hpf]
    rfl
  · intro h; subst h
    rw [parseProgressInfo_four id _ _ st pr d (splitN_four_fields _ st pr d hk hs hp),
        hpf]
    rfl
  · intro h; subst h
    rw [parseProgressInfo_four id _ _ st pr d (splitN_four_fields _ st pr d hk hs hp),
        hpf]
    rfl
  · intro h; subst h
    rw [parseProgressInfo_four id _ _ st pr d (splitN_four_fields _ st pr d hk hs hp),
        hpf]
    rfl
  · intro h1 h2 h3 h4
    rw [parseProgressInfo_four id _ k st pr d (splitN_four_fields k st pr d hk hs hp),
        hpf]
    simp only [if_neg h4, if_neg h1, if_neg h2, if_neg h3]

/-- C5 witness: a concrete dlstatus line and a concrete unknown-kind
(pmconffile) line. -/
theorem parseProgressInfo_kind_mapping_witness :
    parseProgressInfo ("j".data) ("dlstatus:dl:50:desc".data) =
      .ok { JobId := ("j".data), Progress := 50 / 100, Description := ("desc".data),
            Status := RunningStatus, Cancelable := true } ∧
    parseProgressInfo ("j".data) ("pmconffile:a:50:desc".data) =
      .error unknowStatusMsg := by
  constructor
  · exact (parseProgressInfo_kind_mapping ("j".data) ("dlstatus".data) ("dl".data)
      ("50".data) ("desc".data) (by decide) (by decide) (by decide) 50 rfl).1 rfl
  · exact ((((parseProgressInfo_kind_mapping ("j".data) ("pmconffile".data) ("a".data)
      ("50".data) ("desc".data) (by decide) (by decide) (by decide) 50
      rfl).2).2).2).2 (by decide) (by decide) (by decide) (by decide)

/-- C6: a progress line splitting into fewer than four colon-separated fields
is a parse error; with five or more colon-separated pieces the fourth field
captures the entire remainder, embedded `:` included, and a successful parse
trims surrounding whitespace off that field for the description. -/
theorem parseProgressInfo_field_splitting (id : List Char) :
    (∀ line : List Char, line.count ':' < 3 →
      parseProgressInfo id line = .error invalidProgressLineMsg) ∧
    (∀ k st pr d1 d2 : List Char, ':' ∉ k → ':' ∉ st → ':' ∉ pr →
      splitN ':' 4 (k ++ ':' :: (st ++ ':' :: (pr ++ ':' :: (d1 ++ ':' :: d2)))) =
        [k, st, pr, d1 ++ ':' :: d2] ∧
      ∀ r, parseProgressInfo id
          (k ++ ':' :: (st ++ ':' :: (pr ++ ':' :: (d1 ++ ':' :: d2)))) = .ok r →
        r.Description = trimSpace (d1 ++ ':' :: d2)) := by
  constructor
  · exact parseProgressInfo_short id
  · intro k st pr d1 d2 hk hs hp
    have hf := splitN_four_fields k st pr (d1 ++ ':' :: d2) hk hs hp
    refine ⟨hf, ?_⟩
    intro r hr
    rw [parseProgressInfo_four id _ k st pr (d1 ++ ':' :: d2) hf] at hr
    cases hE : parseProgressField pr with
    | error e => rw [hE] at hr; cases hr
    | ok q =>
      rw [hE] at hr
      simp only at hr
      split_ifs at hr <;> (injection hr with h; rw [← h])

/-- C6 witness: the 3-field line "a:b:c" is rejected; the 5-piece line
"k:s:5:a:b" keeps "a:b" whole as its fourth field and the description of
a successful parse of "dummy:s:5: a:b " is the trimmed fourth field. -/
theorem parseProgressInfo_field_splitting_witness :
    parseProgressInfo ("j".data) ("a:b:c".data) = .error invalidProgressLineMsg ∧
    splitN ':' 4 ("k:s:5:a:b".data) =
      [("k".data), ("s".data), ("5".data), ("a:b".data)] ∧
    ∀ r, parseProgressInfo ("j".data) ("dummy:s:5: a:b ".data) = .ok r →
      r.Description = trimSpace (" a:b ".data) := by
  refine ⟨(parseProgressInfo_field_splitting ("j".data)).1 ("a:b:c".data) (by decide),
          ?_, ?_⟩
  · exact ((parseProgressInfo_field_splitting ("j".data)).2 ("k".data) ("s".data)
      ("5".data) ("a".data) ("b".data) (by decide) (by decide) (by decide)).1
  · exact fun r hr =>
      ((parseProgressInfo_field_splitting ("j".data)).2 ("dummy".data) ("s".data)
        ("5".data) (" a".data) ("b ".data) (by decide) (by decide) (by decide)).2 r hr

/-- C10: when the third (progress) field does not parse as a decimal number,
`parseProgressInfo` errors for every kind — the numeric field is parsed
before the kind is examined — so no progress record is produced, for
"pmerror" and "dummy" included. -/
theorem parseProgressInfo_numeric_first (id k st pr d : List Char)
    (hk : ':' ∉ k) (hs : ':' ∉ st) (hp : ':' ∉ pr)
    (hq : parseDecimal pr = none) :
    parseProgressInfo id (k ++ ':' :: (st ++ ':' :: (pr ++ ':' :: d))) =
      .error unknownProgressValueMsg := by
  have hpf : parseProgressField pr = .error unknownProgressValueMsg := by
    unfold parseProgressField
    rw [hq]
  rw [parseProgressInfo_four id _ k st pr d (splitN_four_fields k st pr d hk hs hp),
      hpf]

/-- C10 witness: a non-numeric progress field errors for the kinds "pmerror"
and "dummy" as well. -/
theorem parseProgressInfo_numeric_first_witness :
    parseProgressInfo ("j".data) ("pmerror:e:xy:d".data) =
      .error unknownProgressValueMsg ∧
    parseProgressInfo ("j".data) ("dummy:e:xy:d".data) =
      .error unknownProgressValueMsg := by
  constructor
  · exact parseProgressInfo_numeric_first ("j".data) ("pmerror".data) ("e".data)
      ("xy".data) ("d".data) (by decide) (by decide) (by decide) (by decide)
  · exact parseProgressInfo_numeric_first ("j".data) ("dummy".data) ("e".data)
      ("xy".data) ("d".data) (by decide) (by decide) (by decide) (by decide)

/-! The error classifier `parsePkgSystemError` of proxy.go. -/

/-- Modelled from the spec (§6): the wire-stable error-kind strings of
`internal/system` (not under src/); only their distinctness matters here. -/
def ErrTypeDpkgInterrupted : List Char := ("dpkgInterrupted".data)

/-- Modelled from the spec (§6): error kind `dependenciesBroken`. -/
def ErrTypeDependenciesBroken : List Char := ("dependenciesBroken".data)

/-- Modelled from the spec (§6): error kind `invalidSourceList`. -/
def ErrTypeInvalidSourcesList : List Char := ("invalidSourceList".data)

/-- Modelled from the spec (§6): error kind `unknown`. -/
def ErrTypeUnknown : List Char := ("unknown".data)

/-- `system.PkgSystemError` (Go field `Type` is rendered `Type'`, as `Type`
is reserved in Lean). -/
structure PkgSystemError where
  Type' : List Char
  Detail : List Char := []
deriving DecidableEq, Repr

/-! The byte-string markers matched by `parsePkgSystemError`. -/

def dpkgInterruptedMarker : List Char := ("dpkg was interrupted".data)
def unmetDepMarker : List Char := ("Unmet dependencies".data)
def unmetDepDetailMarker : List Char :=
  ("The following packages have unmet dependencies:".data)
def sourcesListMarker : List Char := ("The list of sources could not be read".data)

/-- `parsePkgSystemError` of proxy.go: `nil` on empty stderr, else the first
matching classification rule wins. -/
def parsePkgSystemError (out err : List Char) : Option PkgSystemError :=
  if err.length = 0 then none
  else if containsSub err dpkgInterruptedMarker then
    some { Type' := ErrTypeDpkgInterrupted }
  else if containsSub err unmetDepMarker then
    let detail :=
      match strIndex out unmetDepDetailMarker with
      | none => out
      | some idx => out.drop idx
    some { Type' := ErrTypeDependenciesBroken, Detail := detail }
  else if containsSub err sourcesListMarker then
    some { Type' := ErrTypeInvalidSourcesList, Detail := err }
  else
    some { Type' := ErrTypeUnknown, Detail := err }

/-- C4: `parsePkgSystemError` returns `nil` iff stderr is empty; otherwise the
first matching rule wins in order: "dpkg was interrupted" gives
DpkgInterrupted; "Unmet dependencies" gives DependenciesBroken whose detail
is the stdout suffix starting at "The following packages have unmet
dependencies:" (the full stdout when absent); "The list of sources could not
be read" gives InvalidSourcesList with detail stderr; otherwise Unknown with
detail stderr. -/
theorem parsePkgSystemError_classification (out err : List Char) :
    (parsePkgSystemError out err = none ↔ err = []) ∧
    (containsSub err dpkgInterruptedMarker = true →
      parsePkgSystemError out err = some { Type' := ErrTypeDpkgInterrupted }) ∧
    (containsSub err dpkgInterruptedMarker = false →
      containsSub err unmetDepMarker = true →
      parsePkgSystemError out err =
        some { Type' := ErrTypeDependenciesBroken,
               Detail := match strIndex out unmetDepDetailMarker with
                         | none => out
                         | some idx => out.drop idx }) ∧
    (containsSub err dpkgInterruptedMarker = false →
      containsSub err unmetDepMarker = false →
      containsSub err sourcesListMarker = true →
      parsePkgSystemError out err =
        some { Type' := ErrTypeInvalidSourcesList, Detail := err }) ∧
    (containsSub err dpkgInterruptedMarker = false →
      containsSub err unmetDepMarker = false →
      containsSub err sourcesListMarker = false → err ≠ [] →
      parsePkgSystemError out err =
        some { Type' := ErrTypeUnknown, Detail := err }) := by
  have hempty : ∀ pat : List Char, pat ≠ [] → containsSub ([] : List Char) pat = false := by
    intro pat hpat
    unfold containsSub strIndex
    rw [if_neg]
    · rfl
    · cases pat with
      | nil => exact absurd rfl hpat
      | cons c t => simp [List.isPrefixOf]
  refine ⟨⟨?_, ?_⟩, ?_, ?_, ?_, ?_⟩
  · intro h
    by_contra hne
    have hlen : err.length ≠ 0 := fun h0 => hne (List.length_eq_zero.mp h0)
    unfold parsePkgSystemError at h
    rw [if_neg hlen] at h
    split_ifs at h
  · intro h
    subst h
    rfl
  · intro h1
    have hne : err.length ≠ 0 := by
      intro h0
      rw [List.length_eq_zero.mp h0, hempty dpkgInterruptedMarker (by decide)] at h1
      cases h1
    unfold parsePkgSystemError
    rw [if_neg hne, if_pos h1]
  · intro h1 h2
    have hne : err.length ≠ 0 := by
      intro h0
      rw [List.length_eq_zero.mp h0, hempty unmetDepMarker (by decide)] at h2
      cases h2
    unfold parsePkgSystemError
    rw [if_neg hne, if_neg (by rw [h1]; exact Bool.false_ne_true), if_pos h2]
  · intro h1 h2 h3
    have hne : err.length ≠ 0 := by
      intro h0
      rw [List.length_eq_zero.mp h0, hempty sourcesListMarker (by decide)] at h3
      cases h3
    unfold parsePkgSystemError
    rw [if_neg hne, if_neg (by rw [h1]; exact Bool.false_ne_true),
        if_neg (by rw [h2]; exact Bool.false_ne_true), if_pos h3]
  · intro h1 h2 h3 hne'
    have hne : err.length ≠ 0 := fun h0 => hne' (List.length_eq_zero.mp h0)
    unfold parsePkgSystemError
    rw [if_neg hne, if_neg (by rw [h1]; exact Bool.false_ne_true),
        if_neg (by rw [h2]; exact Bool.false_ne_true),
        if_neg (by rw [h3]; exact Bool.false_ne_true)]

/-- C4 witness: stderr "Unmet dependencies" with stdout holding the unmet
marker after a two-character prefix classifies as DependenciesBroken with
the stdout suffix as detail; empty stderr yields no error. -/
theorem parsePkgSystemError_classification_witness :
    parsePkgSystemError (("ab".data) ++ unmetDepDetailMarker)
        ("E: Unmet dependencies".data) =
      some { Type' := ErrTypeDependenciesBroken,
             Detail := unmetDepDetailMarker } ∧
    parsePkgSystemError ("anything".data) [] = none := by
  constructor
  · have h := (parsePkgSystemError_classification
      (("ab".data) ++ unmetDepDetailMarker) ("E: Unmet dependencies".data)).2.2.1
      (by decide) (by decide)
    rw [h]
    decide
  · exact (parsePkgSystemError_classification ("anything".data) []).1.mpr rfl

/-! The Safe-Start guard `safeStart` of proxy.go.  The simulation subprocess
is abstracted by its observable outcome (whether `cmd.Wait()` failed, plus
the captured stdout and stderr); the classifier `parseJobError`, defined
outside src/, is a parameter taking `(stderr, stdout)` in the order the
source calls it. -/

/-- The `JobError` record whose `Type` and `Detail` fields `safeStart` reads
(`Type` rendered `Type'`). -/
structure JobError where
  Type' : List Char
  Detail : List Char
deriving DecidableEq, Repr

/-- The marker `safeStart` greps the simulation stdout for. -/
def removeDDEMarker : List Char := ("Remv dde ".data)

/-- The wire string passed as kind when the simulation would remove dde. -/
def errorRemoveDDE : List Char := ("removeDDE".data)

/-- What the goroutine of `safeStart` does after the simulation finished. -/
inductive SafeStartAction
  | indicateFailed (kind detail : List Char) (cancelable : Bool)
  | startReal
deriving DecidableEq, Repr

/-- `safeStart` of proxy.go, the decision taken once the `-s` simulation run
has completed: classify-and-fail on simulation failure, fail with
`removeDDE` (cancelable) when the simulation stdout mentions removing dde,
otherwise start the real command. -/
def safeStart (parseJobErr : List Char → List Char → JobError)
    (simFailed : Bool) (stdout stderr : List Char) : SafeStartAction :=
  if simFailed then
    let jobErr := parseJobErr stderr stdout
    .indicateFailed jobErr.Type' jobErr.Detail false
  else if containsSub stdout removeDDEMarker then
    .indicateFailed errorRemoveDDE [] true
  else
    .startReal

/-- C1: through the Safe-Start guard, a failing simulation leads to
`IndicateFailed` with the classified kind and the real command is never
started; a successful simulation whose stdout contains "Remv dde " leads to
`IndicateFailed` with kind removeDDE and cancelable true, again without
starting the real command; only otherwise is the real command started. -/
theorem safeStart_veto (parseJobErr : List Char → List Char → JobError)
    (simFailed : Bool) (stdout stderr : List Char) :
    (simFailed = true →
      safeStart parseJobErr simFailed stdout stderr =
        .indicateFailed (parseJobErr stderr stdout).Type'
          (parseJobErr stderr stdout).Detail false ∧
      safeStart parseJobErr simFailed stdout stderr ≠ .startReal) ∧
    (simFailed = false → containsSub stdout removeDDEMarker = true →
      safeStart parseJobErr simFailed stdout stderr =
        .indicateFailed errorRemoveDDE [] true ∧
      safeStart parseJobErr simFailed stdout stderr ≠ .startReal) ∧
    (simFailed = false → containsSub stdout removeDDEMarker = false →
      safeStart parseJobErr simFailed stdout stderr = .startReal) := by
  refine ⟨?_, ?_, ?_⟩
  · intro h
    subst h
    exact ⟨rfl, by unfold safeStart; exact fun hc => SafeStartAction.noConfusion hc⟩
  · intro h hm
    subst h
    unfold safeStart
    rw [if_neg (by exact fun hc => Bool.noConfusion hc), if_pos hm]
    exact ⟨rfl, fun hc => SafeStartAction.noConfusion hc⟩
  · intro h hm
    subst h
    unfold safeStart
    rw [if_neg (by exact fun hc => Bool.noConfusion hc),
        if_neg (by rw [hm]; exact Bool.false_ne_true)]

/-- C1 witness: with the classifier returning kind unknown, a failed
simulation indicates that kind; a successful simulation printing
"Remv dde core" vetoes with removeDDE; a clean simulation starts the real
command. -/
theorem safeStart_veto_witness :
    safeStart (fun e _ => { Type' := ErrTypeUnknown, Detail := e }) true
        ("out".data) ("err".data) =
      .indicateFailed ErrTypeUnknown ("err".data) false ∧
    safeStart (fun e _ => { Type' := ErrTypeUnknown, Detail := e }) false
        ("Remv dde core".data) [] =
      .indicateFailed errorRemoveDDE [] true ∧
    safeStart (fun e _ => { Type' := ErrTypeUnknown, Detail := e }) false
        ("Inst dde core".data) [] = .startReal := by
  refine ⟨?_, ?_, ?_⟩
  · exact ((safeStart_veto (fun e _ => { Type' := ErrTypeUnknown, Detail := e })
      true ("out".data) ("err".data)).1 rfl).1
  · exact ((safeStart_veto (fun e _ => { Type' := ErrTypeUnknown, Detail := e })
      false ("Remv dde core".data) []).2.1 rfl (by decide)).1
  · exact (safeStart_veto (fun e _ => { Type' := ErrTypeUnknown, Detail := e })
      false ("Inst dde core".data) []).2.2 rfl (by decide)

/-! The `AtExitFn` hook installed by `APTSystem.UpdateSource` in proxy.go. -/

/-- Modelled from the spec (§8, scenario 3): `system.ExitSuccess` of
`internal/system` (not under src/) is the exit code 0. -/
def ExitSuccess : Int := 0

def someIndexFailedMarker : List Char :=
  ("Some index files failed to download".data)
def noSpaceMarker : List Char := ("No space left on device".data)

/-- Modelled from the spec (§6): error kind `insufficientSpace`. -/
def ErrorInsufficientSpace : List Char := ("insufficientSpace".data)

/-- Modelled from the spec (§6): error kind `indexDownloadFailed`. -/
def ErrorIndexDownloadFailed : List Char := ("indexDownloadFailed".data)

/-- The `AtExitFn` closure of `UpdateSource`: given the child's exit code and
captured stderr, it returns the `IndicateFailed` call it makes (kind,
detail, cancelable), if any, and the boolean it returns (true suppresses
the runner's default outcome). -/
def updateSourceAtExit (exitCode : Int) (stderr : List Char) :
    Option (List Char × List Char × Bool) × Bool :=
  if exitCode = ExitSuccess ∧ containsSub stderr someIndexFailedMarker = true then
    if containsSub stderr noSpaceMarker = true then
      (some (ErrorInsufficientSpace, stderr, false), true)
    else
      (some (ErrorIndexDownloadFailed, stderr, false), true)
  else
    (none, false)

/-- C7: on child success with stderr containing "Some index files failed to
download", the UpdateSource at-exit hook marks the command Failed with kind
InsufficientSpace when stderr also contains "No space left on device" and
with kind IndexDownloadFailed otherwise, returning true (suppressing the
default success path); in every other case it indicates nothing and returns
false. -/
theorem updateSourceAtExit_classification (exitCode : Int) (stderr : List Char) :
    (exitCode = ExitSuccess → containsSub stderr someIndexFailedMarker = true →
      containsSub stderr noSpaceMarker = true →
      updateSourceAtExit exitCode stderr =
        (some (ErrorInsufficientSpace, stderr, false), true)) ∧
    (exitCode = ExitSuccess → containsSub stderr someIndexFailedMarker = true →
      containsSub stderr noSpaceMarker = false →
      updateSourceAtExit exitCode stderr =
        (some (ErrorIndexDownloadFailed, stderr, false), true)) ∧
    (¬(exitCode = ExitSuccess ∧ containsSub stderr someIndexFailedMarker = true) →
      updateSourceAtExit exitCode stderr = (none, false)) := by
  refine ⟨?_, ?_, ?_⟩
  · intro h1 h2 h3
    unfold updateSourceAtExit
    rw [if_pos ⟨h1, h2⟩, if_pos h3]
  · intro h1 h2 h3
    unfold updateSourceAtExit
    rw [if_pos ⟨h1, h2⟩, if_neg (by rw [h3]; exact Bool.false_ne_true)]
  · intro h
    unfold updateSourceAtExit
    rw [if_neg h]

/-- C7 witness: concrete stderr contents exercising all three outcomes. -/
theorem updateSourceAtExit_classification_witness :
    updateSourceAtExit 0
        (("Some index files failed to download; No space left on device".data)) =
      (some (ErrorInsufficientSpace,
        ("Some index files failed to download; No space left on device".data),
        false), true) ∧
    updateSourceAtExit 0 (("Some index files failed to download".data)) =
      (some (ErrorIndexDownloadFailed,
        ("Some index files failed to download".data), false), true) ∧
    updateSourceAtExit 1 (("Some index files failed to download".data)) =
      (none, false) := by
  refine ⟨?_, ?_, ?_⟩
  · exact (updateSourceAtExit_classification 0
      (("Some index files failed to download; No space left on device".data))).1
      rfl (by decide) (by decide)
  · exact (updateSourceAtExit_classification 0
      (("Some index files failed to download".data))).2.1 rfl (by decide) (by decide)
  · exact (updateSourceAtExit_classification 1
      (("Some index files failed to download".data))).2.2
      (fun hc => by exact absurd hc.1 (by decide))

/-! `APTSystem.Abort` and `APTSystem.AbortWithFailed` of proxy.go.  Live
commands are abstracted by opaque handles; the command set
`CmdSet map[string]*system.Command` is an association list. -/

/-- The command set of `APTSystem`, keyed by job id; the `Nat` stands for a
live `*system.Command`. -/
def CmdSet := List (List Char × Nat)

/-- Modelled from the spec (§4.6): `FindCMD` (defined outside src/) looks the
job id up in the command set and yields the live command, if any. -/
def FindCMD (s : CmdSet) (jobId : List Char) : Option Nat :=
  match s with
  | [] => none
  | (k, c) :: t => if k = jobId then some c else FindCMD t jobId

/-- Outcome of an abort request: routed to a live command's abort, or the
`system.NotFoundError` value. -/
inductive AbortResult
  | routed (cmd : Nat) (withFailed : Bool)
  | notFound (msg : List Char)
deriving DecidableEq, Repr

/-- `APTSystem.Abort` of proxy.go; the command set is returned unchanged. -/
def Abort (s : CmdSet) (jobId : List Char) : CmdSet × AbortResult :=
  match FindCMD s jobId with
  | some c => (s, .routed c false)
  | none => (s, .notFound (("abort ".data) ++ jobId))

/-- `APTSystem.AbortWithFailed` of proxy.go; the command set is returned
unchanged. -/
def AbortWithFailed (s : CmdSet) (jobId : List Char) : CmdSet × AbortResult :=
  match FindCMD s jobId with
  | some c => (s, .routed c true)
  | none => (s, .notFound (("abort ".data) ++ jobId))

/-- C8: when no live command exists for the job id, both `Abort` and
`AbortWithFailed` return a NotFound error and leave the command set
unchanged; when a live command exists, the request is routed to that
command's abort. -/
theorem abort_not_found (s : CmdSet) (jobId : List Char) :
    (FindCMD s jobId = none →
      Abort s jobId = (s, .notFound (("abort ".data) ++ jobId)) ∧
      AbortWithFailed s jobId = (s, .notFound (("abort ".data) ++ jobId))) ∧
    (∀ c, FindCMD s jobId = some c →
      Abort s jobId = (s, .routed c false) ∧
      AbortWithFailed s jobId = (s, .routed c true)) := by
  constructor
  · intro h
    constructor
    · unfold Abort; rw [h]
    · unfold AbortWithFailed; rw [h]
  · intro c h
    constructor
    · unfold Abort; rw [h]
    · unfold AbortWithFailed; rw [h]

/-- C8 witness: a one-command set; the absent id gets NotFound, the present
id is routed. -/
theorem abort_not_found_witness :
    Abort [(("job1".data), 7)] ("job2".data) =
      ([(("job1".data), 7)], .notFound ("abort job2".data)) ∧
    AbortWithFailed [(("job1".data), 7)] ("job2".data) =
      ([(("job1".data), 7)], .notFound ("abort job2".data)) ∧
    Abort [(("job1".data), 7)] ("job1".data) =
      ([(("job1".data), 7)], .routed 7 false) := by
  refine ⟨?_, ?_, ?_⟩
  · exact ((abort_not_found [(("job1".data), 7)] ("job2".data)).1 (by decide)).1
  · exact ((abort_not_found [(("job1".data), 7)] ("job2".data)).1 (by decide)).2
  · exact ((abort_not_found [(("job1".data), 7)] ("job1".data)).2 7 (by decide)).1

/-! `handleUpdateSourceFailed` of src/lastore-daemon (updateSource retry
hook).  `system.UpdateType` and `system.CustomSourceWrapper` live outside
src/: the update types are modelled from the spec, and the wrapper is
modelled as handing the callback the path of the selected source flavour
(a directory or a file), which the callback installs into the job's
options. -/

/-- Modelled from the spec (§4.6, §9): the `system.UpdateType` flavours named
by the source; `zeroValue` is the Go zero value a missing map key yields. -/
inductive UpdateType
  | zeroValue
  | allCheckUpdate
  | allInstallUpdate
deriving DecidableEq, Repr

/-- The fields of `Job` (src/lastore-daemon) that the hook touches: the retry
counter and the apt `option` map. -/
structure Job where
  retry : Int
  option : List (List Char × List Char)
deriving DecidableEq, Repr

def sourceListKey : List Char := ("Dir::Etc::SourceList".data)
def sourcePartsKey : List Char := ("Dir::Etc::SourceParts".data)
def devNullPath : List Char := ("/dev/null".data)

/-- The retry ladder of `handleUpdateSourceFailed`: the Go literal
`map[int]system.UpdateType{1: system.AllInstallUpdate}`. -/
def updateSourceRetryMap (retry : Int) : Option UpdateType :=
  if retry = 1 then some .allInstallUpdate else none

/-- `handleUpdateSourceFailed` of src/lastore-daemon: clamp the retry counter
to 1, select the fallback source flavour from the retry map (Go zero value
when absent), and install the flavour's path into the job's options —
`SourceParts` for a directory, `SourceList` for a file.  Returns the updated
job and the selected update type. -/
def handleUpdateSourceFailed (j : Job) (path : List Char) (isDir : Bool) :
    Job × UpdateType :=
  let j1 := if j.retry > 1 then { j with retry := 1 } else j
  let updateType := (updateSourceRetryMap j1.retry).getD .zeroValue
  let j2 :=
    if isDir then
      { j1 with option := [(sourceListKey, devNullPath), (sourcePartsKey, path)] }
    else
      { j1 with option := [(sourceListKey, path), (sourcePartsKey, devNullPath)] }
  (j2, updateType)

/-- C9: the UpdateSource sub-retry hook clamps the retry counter to at most 1
(writing 1 back whenever it exceeded 1), its retry map holds exactly the one
entry mapping 1 to the fallback flavour AllInstallUpdate, and the selected
flavour's path is installed into the job's options. -/
theorem handleUpdateSourceFailed_clamp (j : Job) (path : List Char) (isDir : Bool) :
    (handleUpdateSourceFailed j path isDir).1.retry ≤ 1 ∧
    (j.retry > 1 → (handleUpdateSourceFailed j path isDir).1.retry = 1) ∧
    (j.retry ≤ 1 → (handleUpdateSourceFailed j path isDir).1.retry = j.retry) ∧
    (∀ r t, updateSourceRetryMap r = some t ↔ r = 1 ∧ t = .allInstallUpdate) ∧
    ((handleUpdateSourceFailed j path isDir).1.option =
      if isDir then [(sourceListKey, devNullPath), (sourcePartsKey, path)]
      else [(sourceListKey, path), (sourcePartsKey, devNullPath)]) := by
  refine ⟨?_, ?_, ?_, ?_, ?_⟩
  · unfold handleUpdateSourceFailed
    by_cases h : j.retry > 1
    · rw [if_pos h]
      cases isDir <;> simp
    · rw [if_neg h]
      cases isDir <;> simp <;> omega
  · intro h
    unfold handleUpdateSourceFailed
    rw [if_pos h]
    cases isDir <;> simp
  · intro h
    unfold handleUpdateSourceFailed
    rw [if_neg (by omega)]
    cases isDir <;> simp
  · intro r t
    unfold updateSourceRetryMap
    constructor
    · intro h
      by_cases hr : r = 1
      · rw [if_pos hr] at h
        exact ⟨hr, (Option.some.injEq _ _ ▸ h).symm⟩
      · rw [if_neg hr] at h
        cases h
    · intro ⟨h1, h2⟩
      rw [if_pos h1, h2]
  · unfold handleUpdateSourceFailed
    by_cases h : j.retry > 1 <;> [rw [if_pos h]; rw [if_neg h]] <;>
      cases isDir <;> simp

/-- C9 witness: a job with retry 3 is clamped to 1, retry 1 selects
AllInstallUpdate, and the directory path lands in SourceParts. -/
theorem handleUpdateSourceFailed_clamp_witness :
    (handleUpdateSourceFailed { retry := 3, option := [] } ("/tmp/src.d".data)
        true).1.retry = 1 ∧
    updateSourceRetryMap 1 = some .allInstallUpdate ∧
    (handleUpdateSourceFailed { retry := 3, option := [] } ("/tmp/src.d".data)
        true).1.option =
      [(sourceListKey, devNullPath), (sourcePartsKey, ("/tmp/src.d".data))] := by
  refine ⟨?_, ?_, ?_⟩
  · exact (handleUpdateSourceFailed_clamp { retry := 3, option := [] }
      ("/tmp/src.d".data) true).2.1 (by decide)
  · exact ((handleUpdateSourceFailed_clamp { retry := 3, option := [] }
      ("/tmp/src.d".data) true).2.2.2.1 1 .allInstallUpdate).mpr ⟨rfl, rfl⟩
  · have h := (handleUpdateSourceFailed_clamp { retry := 3, option := [] }
      ("/tmp/src.d".data) true).2.2.2.2
    rw [if_pos rfl] at h
    exact h

/-! The Lock Sentinel `WaitDpkgLockRelease` / `checkLock` of proxy.go.  One
probe of a lock file is abstracted by its observable outcome; the
environment function gives, for each scan iteration `t` (i.e. after `t`
5-second sleeps) and each file index (0 = `/var/lib/dpkg/lock`,
1 = `/var/lib/dpkg/lock-frontend`, probed in that order), the probe's
outcome. -/

/-- Outcome of one `checkLock` probe: `os.Open` failed, the `F_GETLK` fcntl
failed, a conflicting `F_WRLCK` is held, or the file is unlocked. -/
inductive ProbeResult
  | openFail
  | fcntlFail
  | wrlck
  | unlocked
deriving DecidableEq, Repr

/-- `checkLock` of proxy.go reduced to its wait decision: an open failure is
treated as unlocked; a failing fcntl or a conflicting write lock means
wait. -/
def checkLock : ProbeResult → Bool
  | .openFail => false
  | .fcntlFail => true
  | .wrlck => true
  | .unlocked => false

def dpkgLockFile : List Char := ("/var/lib/dpkg/lock".data)
def dpkgLockFrontendFile : List Char := ("/var/lib/dpkg/lock-frontend".data)

/-- The probe order of the scan loop. -/
def dpkgLockFiles : Fin 2 → List Char := fun i =>
  if i = 0 then dpkgLockFile else dpkgLockFrontendFile

/-- `WaitDpkgLockRelease` of proxy.go over the probe environment `env`,
with `fuel` bounding the number of loop iterations modelled: probe file 0;
on conflict sleep 5 s and restart the scan; else probe file 1; on conflict
sleep 5 s and restart; else return.  Yields the iteration at which it
returned and the total seconds slept, or `none` when `fuel` iterations did
not suffice. -/
def WaitDpkgLockRelease (env : Nat → Fin 2 → ProbeResult) :
    Nat → Nat → Option (Nat × Nat)
  | 0, _ => none
  | fuel + 1, t =>
    if checkLock (env t 0) then
      (WaitDpkgLockRelease env fuel (t + 1)).map (fun r => (r.1, r.2 + 5))
    else if checkLock (env t 1) then
      (WaitDpkgLockRelease env fuel (t + 1)).map (fun r => (r.1, r.2 + 5))
    else
      some (t, 0)

/-- C2: `WaitDpkgLockRelease` returns only after a scan pass in which both
lock files (probed first-to-second) show no conflicting lock; every earlier
scan found a conflict on one of the two files and cost one 5-second sleep
before the scan restarted from the first file; an open failure counts as
unlocked. -/
theorem WaitDpkgLockRelease_spec (env : Nat → Fin 2 → ProbeResult)
    (fuel t0 t slept : Nat)
    (h : WaitDpkgLockRelease env fuel t0 = some (t, slept)) :
    checkLock (env t 0) = false ∧ checkLock (env t 1) = false ∧
    t0 ≤ t ∧ slept = 5 * (t - t0) ∧
    (∀ u, t0 ≤ u → u < t →
      checkLock (env u 0) = true ∨ checkLock (env u 1) = true) ∧
    checkLock .openFail = false := by
  induction fuel generalizing t0 t slept with
  | zero => exact absurd h (by rw [WaitDpkgLockRelease]; exact fun hc => Option.noConfusion hc)
  | succ fuel ih =>
    rw [WaitDpkgLockRelease] at h
    cases hc0 : checkLock (env t0 0) with
    | true =>
      rw [hc0] at h
      simp only [if_true] at h
      cases hrec : WaitDpkgLockRelease env fuel (t0 + 1) with
      | none => rw [hrec] at h; cases h
      | some p =>
        obtain ⟨t', s'⟩ := p
        rw [hrec] at h
        simp only [Option.map_some'] at h
        rw [Option.some.injEq, Prod.mk.injEq] at h
        obtain ⟨h1, h2⟩ := h
        subst h1; subst h2
        obtain ⟨p1, p2, p3, p4, p5, p6⟩ := ih (t0 + 1) t' s' hrec
        refine ⟨p1, p2, by omega, by omega, ?_, rfl⟩
        intro u hu1 hu2
        by_cases hu : u = t0
        · subst hu; exact Or.inl hc0
        · exact p5 u (by omega) hu2
    | false =>
      rw [hc0] at h
      simp only [Bool.false_eq_true, if_false] at h
      cases hc1 : checkLock (env t0 1) with
      | true =>
        rw [hc1] at h
        simp only [if_true] at h
        cases hrec : WaitDpkgLockRelease env fuel (t0 + 1) with
        | none => rw [hrec] at h; cases h
        | some p =>
          obtain ⟨t', s'⟩ := p
          rw [hrec] at h
          simp only [Option.map_some'] at h
          rw [Option.some.injEq, Prod.mk.injEq] at h
          obtain ⟨h1, h2⟩ := h
          subst h1; subst h2
          obtain ⟨p1, p2, p3, p4, p5, p6⟩ := ih (t0 + 1) t' s' hrec
          refine ⟨p1, p2, by omega, by omega, ?_, rfl⟩
          intro u hu1 hu2
          by_cases hu : u = t0
          · subst hu; exact Or.inr hc1
          · exact p5 u (by omega) hu2
      | false =>
        rw [hc1] at h
        simp only [Bool.false_eq_true, if_false] at h
        rw [Option.some.injEq, Prod.mk.injEq] at h
        obtain ⟨h1, h2⟩ := h
        subst h1; subst h2
        exact ⟨hc0, hc1, Nat.le_refl _, by omega,
               fun u hu1 hu2 => absurd hu2 (by omega), rfl⟩

/-- The lock scenario of spec §8 (scenario 4): in scan 0 the frontend lock is
held, in scan 1 the first lock is held, from scan 2 on both are free. -/
def demoLockEnv : Nat → Fin 2 → ProbeResult := fun t i =>
  if t = 0 then (if i = 0 then .unlocked else .wrlck)
  else if t = 1 then (if i = 0 then .wrlck else .unlocked)
  else .unlocked

/-- C2 witness: on `demoLockEnv` the sentinel returns at scan 2 after two
5-second sleeps, both probes of scan 2 are conflict-free, and scans 0 and 1
each had a conflict. -/
theorem WaitDpkgLockRelease_spec_witness :
    WaitDpkgLockRelease demoLockEnv 10 0 = some (2, 10) ∧
    checkLock (demoLockEnv 2 0) = false ∧ checkLock (demoLockEnv 2 1) = false ∧
    (∀ u, 0 ≤ u → u < 2 →
      checkLock (demoLockEnv u 0) = true ∨ checkLock (demoLockEnv u 1) = true) := by
  have hrun : WaitDpkgLockRelease demoLockEnv 10 0 = some (2, 10) := by decide
  have h := WaitDpkgLockRelease_spec demoLockEnv 10 0 2 10 hrun
  exact ⟨hrun, h.1, h.2.1, h.2.2.2.2.1⟩

/-! The facade operations of proxy.go.  Each operation is embedded as the
sequence of effects it performs plus the error it returns; the result of
`CheckPkgSystemError` is supplied by the environment `chk` (it is `nil` or
a `*system.PkgSystemError`, so Go's `errors.As` in DistUpgrade always
succeeds on a non-nil error).  `newAPTCommand`, `SetEnv` and the start
calls themselves are events; their own failure modes are irrelevant here. -/

/-- One observable effect of a facade operation. -/
inductive AptEvent
  | waitDpkgLock
  | checkPkgSystem (lock : Bool)
  | newCommand
  | safeStartCmd
  | startCmd
deriving DecidableEq, Repr

/-- `APTSystem.Install` of proxy.go: wait for the dpkg lock, check the
package system with locking, bail out on a check error, else build the
command and safe-start it. -/
def Install (chk : Bool → Option PkgSystemError) :
    List AptEvent × Option PkgSystemError :=
  match chk true with
  | some e => ([.waitDpkgLock, .checkPkgSystem true], some e)
  | none => ([.waitDpkgLock, .checkPkgSystem true, .newCommand, .safeStartCmd], none)

/-- `APTSystem.Remove` of proxy.go (same guard structure as Install). -/
def Remove (chk : Bool → Option PkgSystemError) :
    List AptEvent × Option PkgSystemError :=
  match chk true with
  | some e => ([.waitDpkgLock, .checkPkgSystem true], some e)
  | none => ([.waitDpkgLock, .checkPkgSystem true, .newCommand, .safeStartCmd], none)

/-- `APTSystem.DistUpgrade` of proxy.go: as Install, but a check error of
kind DependenciesBroken is tolerated and the upgrade proceeds. -/
def DistUpgrade (chk : Bool → Option PkgSystemError) :
    List AptEvent × Option PkgSystemError :=
  match chk true with
  | some e =>
    if e.Type' ≠ ErrTypeDependenciesBroken then
      ([.waitDpkgLock, .checkPkgSystem true], some e)
    else
      ([.waitDpkgLock, .checkPkgSystem true, .newCommand, .safeStartCmd], none)
  | none => ([.waitDpkgLock, .checkPkgSystem true, .newCommand, .safeStartCmd], none)

/-- `APTSystem.FixError` of proxy.go: wait for the dpkg lock, build the
command, and safe-start it when fixing DependenciesBroken, else start it
directly — no package-system check is performed. -/
def FixError (errType : List Char) : List AptEvent × Option PkgSystemError :=
  ([.waitDpkgLock, .newCommand,
    if errType = ErrTypeDependenciesBroken then .safeStartCmd else .startCmd],
   none)

/-- `APTSystem.DownloadPackages` of proxy.go: check the package system
without locking, bail out on a check error, else build and start the
command (no dpkg-lock wait). -/
def DownloadPackages (chk : Bool → Option PkgSystemError) :
    List AptEvent × Option PkgSystemError :=
  match chk false with
  | some e => ([.checkPkgSystem false], some e)
  | none => ([.checkPkgSystem false, .newCommand, .startCmd], none)

/-- `APTSystem.DownloadSource` of proxy.go: the check is commented out in the
source; the command is built and started unconditionally. -/
def DownloadSource : List AptEvent × Option PkgSystemError :=
  ([.newCommand, .startCmd], none)

/-- C3 counterexample: `FixError` performs no package-system check at all —
for the concrete error type "unknown" its effect trace is exactly
wait-lock, build, start, and contains no `CheckPkgSystem(lock=true)`
event, refuting the claim that every mutating facade operation checks the
package system before constructing its command. -/
theorem FixError_no_check_counterexample :
    (FixError ErrTypeUnknown).1 =
      [.waitDpkgLock, .newCommand, .startCmd] ∧
    AptEvent.checkPkgSystem true ∉ (FixError ErrTypeUnknown).1 := by decide

/-- C3 (amended): Install, Remove and DistUpgrade wait for the dpkg lock and
check the package system with lock=true before constructing their command,
returning the classified error without starting anything when the check
fails — DistUpgrade proceeding when the error kind is DependenciesBroken;
FixError waits for the dpkg lock but performs no package-system check and
always constructs its command; DownloadPackages checks with lock=false and
returns its error without starting a command; DownloadSource performs no
check. -/
theorem facade_precheck (chk : Bool → Option PkgSystemError)
    (e : PkgSystemError) (errType : List Char) :
    (chk true = some e →
      Install chk = ([.waitDpkgLock, .checkPkgSystem true], some e) ∧
      Remove chk = ([.waitDpkgLock, .checkPkgSystem true], some e)) ∧
    (chk true = none →
      Install chk =
        ([.waitDpkgLock, .checkPkgSystem true, .newCommand, .safeStartCmd], none) ∧
      Remove chk =
        ([.waitDpkgLock, .checkPkgSystem true, .newCommand, .safeStartCmd], none)) ∧
    (chk true = some e → e.Type' ≠ ErrTypeDependenciesBroken →
      DistUpgrade chk = ([.waitDpkgLock, .checkPkgSystem true], some e)) ∧
    (chk true = some e → e.Type' = ErrTypeDependenciesBroken →
      DistUpgrade chk =
        ([.waitDpkgLock, .checkPkgSystem true, .newCommand, .safeStartCmd], none)) ∧
    (chk true = none →
      DistUpgrade chk =
        ([.waitDpkgLock, .checkPkgSystem true, .newCommand, .safeStartCmd], none)) ∧
    (FixError errType =
      ([.waitDpkgLock, .newCommand,
        if errType = ErrTypeDependenciesBroken then .safeStartCmd else .startCmd],
       none) ∧
      (∀ b, AptEvent.checkPkgSystem b ∉ (FixError errType).1)) ∧
    (chk false = some e →
      DownloadPackages chk = ([.checkPkgSystem false], some e)) ∧
    (chk false = none →
      DownloadPackages chk = ([.checkPkgSystem false, .newCommand, .startCmd], none)) ∧
    (DownloadSource = ([.newCommand, .startCmd], none) ∧
      ∀ b, AptEvent.checkPkgSystem b ∉ DownloadSource.1) := by
  refine ⟨?_, ?_, ?_, ?_, ?_, ⟨rfl, ?_⟩, ?_, ?_, rfl, ?_⟩
  · intro h
    constructor
    · unfold Install; rw [h]
    · unfold Remove; rw [h]
  · intro h
    constructor
    · unfold Install; rw [h]
    · unfold Remove; rw [h]
  · intro h hne
    unfold DistUpgrade
    rw [h]
    simp only [if_pos hne]
  · intro h heq
    unfold DistUpgrade
    rw [h]
    simp only [heq, ne_eq, not_true_eq_false, if_neg, ite_false]
  · intro h
    unfold DistUpgrade; rw [h]
  · intro b
    by_cases h : errType = ErrTypeDependenciesBroken <;>
      simp [FixError, h]
  · intro h
    unfold DownloadPackages; rw [h]
  · intro h
    unfold DownloadPackages; rw [h]
  · intro b
    simp [DownloadSource]

/-- C3 witness: with a failing check of kind unknown, Install stops at the
check and returns the error; with a failing check of kind
DependenciesBroken, DistUpgrade proceeds to safe-start. -/
theorem facade_precheck_witness :
    Install (fun _ => some { Type' := ErrTypeUnknown, Detail := [] }) =
      ([.waitDpkgLock, .checkPkgSystem true],
       some { Type' := ErrTypeUnknown, Detail := [] }) ∧
    DistUpgrade (fun _ => some { Type' := ErrTypeDependenciesBroken, Detail := [] }) =
      ([.waitDpkgLock, .checkPkgSystem true, .newCommand, .safeStartCmd], none) ∧
    DownloadPackages (fun _ => none) =
      ([.checkPkgSystem false, .newCommand, .startCmd], none) := by
  refine ⟨?_, ?_, ?_⟩
  · exact ((facade_precheck (fun _ => some { Type' := ErrTypeUnknown, Detail := [] })
      { Type' := ErrTypeUnknown, Detail := [] } ErrTypeUnknown).1 rfl).1
  · exact (facade_precheck
      (fun _ => some { Type' := ErrTypeDependenciesBroken, Detail := [] })
      { Type' := ErrTypeDependenciesBroken, Detail := [] } ErrTypeUnknown).2.2.2.1
      rfl rfl
  · exact (facade_precheck (fun _ => none)
      { Type' := ErrTypeUnknown, Detail := [] } ErrTypeUnknown).2.2.2.2.2.2.2.1 rfl
